import Mathlib

/-
Verification of the document-quality validation pipeline of
src/services/intelligence/src/services/processador_documentos_v3.py.

The pipeline is embedded shallowly: every external effect (pdfplumber.open,
pdf2image.convert_from_path, pytesseract.image_to_data, and any unexpected
exception raised inside the try block of validar_cpo) is an explicit oracle
input, and each Python method becomes a total Lean function on those inputs.
Python exceptions are modelled as values of type Exc; a component that
catches an exception receives the corresponding Except.error value.
-/

/-- Surrogate for a raised Python exception: the type name of the exception
(type(e).__name__) and its message (str(e)).  The same shape is the error
record appended to resultado["erros"] in validar_cpo (lines 128-131). -/
structure Exc where
  tipo : String
  mensagem : String
deriving DecidableEq

/-- Constant DPI_MINIMO_REQUERIDO = 300 (line 32 of the source). -/
def DPI_MINIMO_REQUERIDO : Nat := 300

/-- Constant CONFIANCA_OCR_MINIMA = 95.0 (line 33 of the source). -/
def CONFIANCA_OCR_MINIMA : ℚ := 95

/-- Oracle inputs consumed by the DPI validation path.

plumberOpen is the outcome of pdfplumber.open (line 199): the number of
pages, or the exception it raised.  convertFirst is the outcome of
convert_from_path(caminho_pdf, dpi=300, first_page=1, last_page=1): the
list of rendered images given by their pixel (width, height), or the
exception raised.  The call appears with identical arguments at lines
209-214 and 254-259; rendering is deterministic, so both calls see the
same outcome. -/
structure DpiEnv where
  plumberOpen : Except Exc Nat
  convertFirst : Except Exc (List (Nat × Nat))

/-- Pixel-dimension bucketing at lines 265-271 of
_detectar_dpi_por_tamanho: width >= 2000 and height >= 2500 gives 300,
else width >= 1000 and height >= 1400 gives 150, else 72. -/
def classe_dpi (width height : Nat) : Nat :=
  if 2000 ≤ width ∧ 2500 ≤ height then 300
  else if 1000 ≤ width ∧ 1400 ≤ height then 150
  else 72

/-- _detectar_dpi_por_tamanho (lines 241-277): convert the first page at
300 DPI; if the conversion raises, the exception is caught (line 273) and
the function returns None; if it yields no image it also returns None
(line 277); otherwise the size of the first image is bucketed. -/
def detectar_dpi_por_tamanho (env : DpiEnv) : Option Nat :=
  match env.convertFirst with
  | .error _ => none
  | .ok [] => none
  | .ok ((width, height) :: _) => some (classe_dpi width height)

/-- _extrair_dpi_pdf (lines 187-239): pdfplumber.open first (an exception
is caught at line 235, giving None); then convert_from_path of the first
page (PDFInfoNotInstalledError and PDFPageCountError are caught at line
231, any other exception at line 235, both giving None; an empty image
list falls through to the final return None at line 239); a non-empty
image list defers to _detectar_dpi_por_tamanho. -/
def extrair_dpi_pdf (env : DpiEnv) : Option Nat :=
  match env.plumberOpen with
  | .error _ => none
  | .ok _ =>
    match env.convertFirst with
    | .error _ => none
    | .ok [] => none
    | .ok (_ :: _) => detectar_dpi_por_tamanho env

/-- The message strings set by _validar_dpi, by constructor:
naoDetectado is "Não foi possível detectar o DPI do PDF" (line 163),
insuficiente d is the f-string "DPI insuficiente: ..." (lines 166-169),
aprovado d is the f-string "DPI aprovado: ..." (line 172), and
erroValidacao e is "Erro ao validar DPI: ..." (line 182, reachable only
if something inside the try raised, which the embedding keeps for
faithfulness of the record shape). -/
inductive DpiMensagem
  | naoDetectado
  | insuficiente (dpi : Nat)
  | aprovado (dpi : Nat)
  | erroValidacao (e : String)
deriving DecidableEq

/-- The dict returned by _validar_dpi (lines 149-154):
resultado["validacoes"]["dpi"] in the verdict. -/
structure DpiResultado where
  aprovado : Bool
  dpi_detectado : Option Nat
  dpi_minimo_requerido : Nat
  mensagem : Option DpiMensagem
deriving DecidableEq

/-- Initial value of the dpi dict (lines 81-86, re-created at lines 149-154). -/
def dpiResultadoInicial : DpiResultado :=
  { aprovado := false
    dpi_detectado := none
    dpi_minimo_requerido := DPI_MINIMO_REQUERIDO
    mensagem := none }

/-- _validar_dpi (lines 137-185): extract the DPI estimate; None gives
the undetectable message and aprovado=False (lines 162-164); a value
below DPI_MINIMO_REQUERIDO gives the insufficient message and
aprovado=False (lines 165-170); otherwise the approved message and
aprovado=True (lines 171-173).  _extrair_dpi_pdf is total in the
embedding, so the except branch at line 180 is not reachable. -/
def validar_dpi (env : DpiEnv) : DpiResultado :=
  match extrair_dpi_pdf env with
  | none =>
    { dpiResultadoInicial with
        dpi_detectado := none
        mensagem := some .naoDetectado
        aprovado := false }
  | some dpi_detectado =>
    if dpi_detectado < DPI_MINIMO_REQUERIDO then
      { dpiResultadoInicial with
          dpi_detectado := some dpi_detectado
          mensagem := some (.insuficiente dpi_detectado)
          aprovado := false }
    else
      { dpiResultadoInicial with
          dpi_detectado := some dpi_detectado
          mensagem := some (.aprovado dpi_detectado)
          aprovado := true }

/-- One entry of the conf column of pytesseract.image_to_data with
Output.DICT.  the TSV parsing of pytesseract converts digit-only cells to int
and leaves other cells (in particular the sentinel "-1", whose leading
minus sign is not a digit) as strings; so an entry is either the sentinel
string "-1" (token not scored) or an integer confidence score. -/
inductive ConfToken
  | sentinel
  | score (n : Int)
deriving DecidableEq

/-- Outcome of rendering plus image_to_data for one page: the conf
entries, or the exception raised while processing that page (caught at
line 338, which skips the page). -/
abbrev PageOcr := Except Exc (List ConfToken)

/-- Oracle inputs consumed by _validar_confianca_ocr: the outcome of
convert_from_path(caminho_pdf, dpi=300) over all pages (lines 301-304),
each page paired with its OCR outcome. -/
structure OcrEnv where
  convert : Except Exc (List PageOcr)

/-- The per-page comprehension at lines 325-328: keep every conf entry
that is not the sentinel string "-1" and convert it with int(...). -/
def confiancas_pagina (dados_conf : List ConfToken) : List Int :=
  dados_conf.filterMap fun conf =>
    match conf with
    | .sentinel => none
    | .score n => some n

/-- One iteration of the accumulation loop at lines 313-340: a page whose
processing raised is skipped (continue, line 340); the non-sentinel
confidences extend the confiancas list when non-empty (lines 330-331). -/
def coletar_passo (confiancas : List Int) (page : PageOcr) : List Int :=
  match page with
  | .error _ => confiancas
  | .ok dados =>
    match confiancas_pagina dados with
    | [] => confiancas
    | pg => confiancas ++ pg

/-- The accumulation loop at lines 311-340: confiancas starts empty and
the pages are folded over in order. -/
def coletar_confiancas (pages : List PageOcr) : List Int :=
  pages.foldl coletar_passo []

/-- The confidences a single page contributes to the pool: none if the
page raised, its non-sentinel confidences otherwise. -/
def paginaScores (page : PageOcr) : List Int :=
  match page with
  | .error _ => []
  | .ok dados => confiancas_pagina dados

/-- Python round half to even of a rational, as an integer. -/
def roundHalfEven (q : ℚ) : ℤ :=
  if q - ⌊q⌋ < 1 / 2 then ⌊q⌋
  else if 1 / 2 < q - ⌊q⌋ then ⌊q⌋ + 1
  else if ⌊q⌋ % 2 = 0 then ⌊q⌋ else ⌊q⌋ + 1

/-- Python round(x, 2) (line 349): round half to even at two decimal
places.  Python rounds the binary double nearest to x; on the exact
rationals of the embedding this is round half to even of 100 * x. -/
def round2 (q : ℚ) : ℚ := (roundHalfEven (q * 100) : ℚ) / 100

/-- The pooled mean computed at line 348, sum(confiancas) /
len(confiancas), guarded by the emptiness check at line 342. -/
def media_confiancas (pages : List PageOcr) : Option ℚ :=
  match coletar_confiancas pages with
  | [] => none
  | confiancas => some (((confiancas.sum : ℤ) : ℚ) / (confiancas.length : ℚ))

/-- Modelled from the spec: the average of the per-page average
confidences ("not an average of per-page averages", section 4.2).  This
is NOT what the code computes; it exists only to be compared against the
pooled mean of media_confiancas. -/
def media_das_medias (pages : List PageOcr) : Option ℚ :=
  let medias := pages.filterMap fun page =>
    match page with
    | .error _ => none
    | .ok dados =>
      match confiancas_pagina dados with
      | [] => none
      | cs => some (((cs.sum : ℤ) : ℚ) / (cs.length : ℚ))
  match medias with
  | [] => none
  | ms => some ((ms.sum : ℚ) / (ms.length : ℚ))

/-- The message strings set by _validar_confianca_ocr, by constructor:
semImagens is "Não foi possível converter PDF para imagens" (line 307),
semDados is "Não foi possível extrair dados de confiança OCR" (line 343),
aprovada m is the f-string "Confiança OCR aprovada: ..." (lines 354-357),
insuficiente m is the f-string "Confiança OCR insuficiente: ..." (lines
360-363), and erroValidacao e is "Erro ao validar confiança OCR: ..."
(line 372).  The m payload is the unrounded mean interpolated into the
f-string. -/
inductive OcrMensagem
  | semImagens
  | semDados
  | aprovada (media : ℚ)
  | insuficiente (media : ℚ)
  | erroValidacao (e : String)
deriving DecidableEq

/-- The dict returned by _validar_confianca_ocr (lines 292-297):
resultado["validacoes"]["ocr_confidence"] in the verdict. -/
structure OcrResultado where
  aprovado : Bool
  confianca_media : Option ℚ
  confianca_minima_requerida : ℚ
  mensagem : Option OcrMensagem
deriving DecidableEq

/-- Initial value of the ocr_confidence dict (lines 87-92 and 292-297). -/
def ocrResultadoInicial : OcrResultado :=
  { aprovado := false
    confianca_media := none
    confianca_minima_requerida := CONFIANCA_OCR_MINIMA
    mensagem := none }

/-- _validar_confianca_ocr (lines 279-375): convert the whole document
(an exception is caught at line 370, giving the error message and
aprovado=False); an empty image list returns early with its own message
(lines 306-308); otherwise the per-page confidences are pooled; an empty
pool returns the no-data message with aprovado=False (lines 342-345);
otherwise the pooled mean is computed (line 348), stored rounded to two
decimals (line 349) and compared inclusively against
CONFIANCA_OCR_MINIMA (lines 352-363). -/
def validar_confianca_ocr (env : OcrEnv) : OcrResultado :=
  match env.convert with
  | .error e =>
    { ocrResultadoInicial with
        mensagem := some (.erroValidacao e.mensagem)
        aprovado := false }
  | .ok [] =>
    { ocrResultadoInicial with
        mensagem := some .semImagens }
  | .ok (page :: pages) =>
    match coletar_confiancas (page :: pages) with
    | [] =>
      { ocrResultadoInicial with
          mensagem := some .semDados
          aprovado := false }
    | confiancas =>
      let confianca_media : ℚ := ((confiancas.sum : ℤ) : ℚ) / (confiancas.length : ℚ)
      if CONFIANCA_OCR_MINIMA ≤ confianca_media then
        { ocrResultadoInicial with
            confianca_media := some (round2 confianca_media)
            aprovado := true
            mensagem := some (.aprovada confianca_media) }
      else
        { ocrResultadoInicial with
            confianca_media := some (round2 confianca_media)
            aprovado := false
            mensagem := some (.insuficiente confianca_media) }

/-- State of the Python uuid.uuid4() generator: successive draws yield
distinct opaque strings, modelled by a counter rendered into the
string. -/
structure UuidGen where
  counter : Nat

/-- One draw of str(uuid.uuid4()): the fresh identifier and the advanced
generator state. -/
def uuid4 (g : UuidGen) : String × UuidGen :=
  ("uuid-" ++ toString g.counter, ⟨g.counter + 1⟩)

/-- Python truthiness fallback x or d for an optional string: None and
the empty string are falsy and select the default. -/
def pyOr (x : Option String) (d : String) : String :=
  match x with
  | none => d
  | some t => if t = "" then d else t

/-- The processor object: its only state is self.tenant_id, set once in
__init__ (line 49). -/
structure Processador where
  tenant_id : String
deriving DecidableEq

/-- __init__ (lines 42-50): self.tenant_id = tenant_id or
str(uuid.uuid4()).  The uuid is drawn only when the argument is falsy
(short-circuit or), so the generator advances only in that case. -/
def mkProcessador (tenant_id : Option String) (g : UuidGen) :
    Processador × UuidGen :=
  match tenant_id with
  | some t =>
    if t = "" then ((⟨(uuid4 g).1⟩ : Processador), (uuid4 g).2)
    else ((⟨t⟩ : Processador), g)
  | none => ((⟨(uuid4 g).1⟩ : Processador), (uuid4 g).2)

/-- Point inside the try block of validar_cpo (lines 98-124) at which an
unexpected exception — one not absorbed by the two assessment components,
which catch their own — may fire: before the dpi result is assigned,
after it but before the ocr result is assigned, or after both. -/
inductive FaultStage
  | antesDpi
  | antesOcr
  | aposValidacoes
deriving DecidableEq

/-- Oracle inputs of one validar_cpo call: the inputs of both assessment
components plus an optional unexpected exception inside the try block
(none when the call completes without an internal error). -/
structure CpoEnv where
  dpi : DpiEnv
  ocr : OcrEnv
  inesperado : Option (FaultStage × Exc)

/-- The dict returned by validar_cpo (lines 75-96): tenant_id, arquivo,
status_cpo (initially None, a string once assigned), the two validation
dicts, the erros list and revisao_necessaria.  The wall-clock timestamp
field is not modelled. -/
structure CpoResultado where
  tenant_id : String
  arquivo : String
  status_cpo : Option String
  dpi : DpiResultado
  ocr_confidence : OcrResultado
  erros : List Exc
  revisao_necessaria : Bool
deriving DecidableEq

/-- validar_cpo (lines 52-135): resolve the tenant (line 71), run both
validations, then classify (lines 107-119): both approved gives VERDE
with revisao_necessaria=False, exactly one gives AMARELO with True,
neither gives VERMELHO with True.  Any unexpected exception inside the
try is caught at line 126: the validation dicts keep whatever was
assigned before the fault, the exception record is appended to erros,
and status VERMELHO with revisao_necessaria=True is forced (lines
128-133).  The function always returns the resultado dict (line 135). -/
def validar_cpo (proc : Processador) (caminho_pdf : String)
    (tenant_id : Option String) (env : CpoEnv) : CpoResultado :=
  let tenant := pyOr tenant_id proc.tenant_id
  let base : CpoResultado :=
    { tenant_id := tenant
      arquivo := caminho_pdf
      status_cpo := none
      dpi := dpiResultadoInicial
      ocr_confidence := ocrResultadoInicial
      erros := []
      revisao_necessaria := false }
  match env.inesperado with
  | some (stage, e) =>
    let parcial : CpoResultado :=
      match stage with
      | .antesDpi => base
      | .antesOcr => { base with dpi := validar_dpi env.dpi }
      | .aposValidacoes =>
        { base with
            dpi := validar_dpi env.dpi
            ocr_confidence := validar_confianca_ocr env.ocr }
    { parcial with
        erros := parcial.erros ++ [e]
        status_cpo := some "VERMELHO"
        revisao_necessaria := true }
  | none =>
    let dpi_resultado := validar_dpi env.dpi
    let ocr_resultado := validar_confianca_ocr env.ocr
    let r := { base with dpi := dpi_resultado, ocr_confidence := ocr_resultado }
    if dpi_resultado.aprovado && ocr_resultado.aprovado then
      { r with status_cpo := some "VERDE", revisao_necessaria := false }
    else if dpi_resultado.aprovado || ocr_resultado.aprovado then
      { r with status_cpo := some "AMARELO", revisao_necessaria := true }
    else
      { r with status_cpo := some "VERMELHO", revisao_necessaria := true }

/-- The dict returned by processar_documento (lines 396-405):
processamento.status starts as "iniciado" and the erros list starts
empty. -/
structure ProcResultado where
  tenant_id : String
  arquivo : String
  status : String
  validacao_cpo : Option CpoResultado
  erros : List Exc
deriving DecidableEq

/-- processar_documento (lines 377-423): resolve the tenant, call
validar_cpo inside a try, store its verdict and set status "concluido"
(lines 407-411).  validar_cpo catches every exception internally and
never raises, so the except branch at line 415 (status "erro", an
appended error record) is unreachable in the embedding. -/
def processar_documento (proc : Processador) (caminho_pdf : String)
    (tenant_id : Option String) (env : CpoEnv) : ProcResultado :=
  let tenant := pyOr tenant_id proc.tenant_id
  let validacao := validar_cpo proc caminho_pdf (some tenant) env
  { tenant_id := tenant
    arquivo := caminho_pdf
    status := "concluido"
    validacao_cpo := some validacao
    erros := [] }

/-- Rendering outcome whose first page measures 2500 x 3600 pixels. -/
def dpiEnvAlta : DpiEnv := ⟨.ok 1, .ok [(2500, 3600)]⟩

/-- Rendering outcome whose first page measures exactly 2000 x 2500
pixels, the lower boundary of the 300 bucket. -/
def dpiEnvLimite300 : DpiEnv := ⟨.ok 1, .ok [(2000, 2500)]⟩

/-- Rendering outcome whose first page measures 1200 x 1600 pixels,
inside the 150 bucket. -/
def dpiEnvMedia : DpiEnv := ⟨.ok 1, .ok [(1200, 1600)]⟩

/-- Rendering outcome where the first-page conversion raises. -/
def dpiEnvFalha : DpiEnv :=
  ⟨.ok 1, .error ⟨"PDFPageCountError", "arquivo corrompido"⟩⟩

/-- A page whose OCR yields confidences 96 and 98 plus one sentinel. -/
def paginaBoa : PageOcr :=
  .ok [.score 96, .sentinel, .score 98]

/-- A page whose OCR yields the single confidence 95. -/
def paginaLimite95 : PageOcr := .ok [.score 95]

/-- A page whose OCR yields 999 confidences of 95 and one of 94, so the
pooled mean is 94999 / 1000 = 94.999. -/
def pagina94999 : PageOcr :=
  .ok (List.replicate 999 (ConfToken.score 95) ++ [ConfToken.score 94])

/-- A page whose OCR yields only the sentinel (zero scoreable tokens). -/
def paginaSemDados : PageOcr := .ok [ConfToken.sentinel]

/-- A page whose processing raised an exception. -/
def paginaFalha : PageOcr := .error ⟨"TesseractError", "ocr falhou"⟩

/-- OCR oracle with one good page (pooled mean 97). -/
def ocrEnvBoa : OcrEnv := ⟨.ok [paginaBoa]⟩

/-- OCR oracle with one page of pooled mean exactly 95. -/
def ocrEnvLimite : OcrEnv := ⟨.ok [paginaLimite95]⟩

/-- OCR oracle with one page of pooled mean 94.999. -/
def ocrEnv94999 : OcrEnv := ⟨.ok [pagina94999]⟩

/-- OCR oracle whose pages render but yield zero scoreable tokens. -/
def ocrEnvSemDados : OcrEnv := ⟨.ok [paginaSemDados, paginaFalha]⟩

/-- OCR oracle whose document converts to an empty image list. -/
def ocrEnvSemImagens : OcrEnv := ⟨.ok []⟩

/-- Two pages with token counts 2 and 1: the pooled mean is 200/3 while
the average of per-page averages is (50 + 100) / 2 = 75. -/
def paginasDesiguais : List PageOcr :=
  [.ok [.score 100, .score 0], .ok [.score 100]]

/-- Orchestrator oracle in which both assessments succeed and no
unexpected exception fires. -/
def cpoEnvVerde : CpoEnv := ⟨dpiEnvAlta, ocrEnvBoa, none⟩

/-- Orchestrator oracle in which both assessments fail (corrupt
rendering, no OCR data) and no unexpected exception fires.  Evaluating it
needs no rational arithmetic. -/
def cpoEnvSimples : CpoEnv := ⟨dpiEnvFalha, ocrEnvSemDados, none⟩

/-- An unexpected exception reaching the try block of validar_cpo. -/
def excInesperada : Exc := ⟨"OSError", "referencia ilegivel"⟩

/-- Orchestrator oracle in which an unexpected exception fires after the
DPI result was assigned. -/
def cpoEnvFalha : CpoEnv := ⟨dpiEnvAlta, ocrEnvBoa, some (.antesOcr, excInesperada)⟩

/-- A processor constructed with an explicit tenant. -/
def procTeste : Processador := ⟨"tenant-1"⟩

/-- A processor constructed with no tenant from a fresh generator: its
tenant_id is the uuid drawn at construction time. -/
def procGerado : Processador := (mkProcessador none ⟨0⟩).1

/-- Folding coletar_passo from any accumulator appends the per-page
contributions in page order. -/
theorem foldl_coletar_passo (pages : List PageOcr) (acc : List Int) :
    pages.foldl coletar_passo acc = acc ++ (pages.map paginaScores).flatten := by
  induction pages generalizing acc with
  | nil => simp
  | cons page rest ih =>
    have hstep : coletar_passo acc page = acc ++ paginaScores page := by
      cases page with
      | error e => simp [coletar_passo, paginaScores]
      | ok dados =>
        cases h : confiancas_pagina dados with
        | nil => simp [coletar_passo, paginaScores, h]
        | cons c cs => simp [coletar_passo, paginaScores, h]
    simp [List.foldl_cons, hstep, ih]

/-- The pooled collection is the flat concatenation of the per-page
non-sentinel confidences, in page order. -/
theorem coletar_eq_flatten (pages : List PageOcr) :
    coletar_confiancas pages = (pages.map paginaScores).flatten := by
  simpa [coletar_confiancas] using foldl_coletar_passo pages []

/-- Every pooled confidence is the score of some non-sentinel token of
some successfully processed page. -/
theorem mem_coletar_confiancas {n : Int} {pages : List PageOcr}
    (h : n ∈ coletar_confiancas pages) :
    ∃ dados, Except.ok dados ∈ pages ∧ ConfToken.score n ∈ dados := by
  rw [coletar_eq_flatten] at h
  rcases List.mem_flatten.mp h with ⟨l, hl, hn⟩
  rcases List.mem_map.mp hl with ⟨page, hpage, rfl⟩
  cases page with
  | error e => simp [paginaScores] at hn
  | ok dados =>
    refine ⟨dados, hpage, ?_⟩
    simp only [paginaScores, confiancas_pagina] at hn
    rcases List.mem_filterMap.mp hn with ⟨tok, htok, hf⟩
    cases tok with
    | sentinel => simp at hf
    | score m =>
      simp only [Option.some.injEq] at hf
      exact hf ▸ htok

/-- The mean of a non-empty list of integers each between 0 and 100 lies
between 0 and 100. -/
theorem media_entre (cs : List Int) (hne : cs ≠ [])
    (hb : ∀ n ∈ cs, 0 ≤ n ∧ n ≤ 100) :
    0 ≤ (((cs.sum : ℤ) : ℚ) / (cs.length : ℚ)) ∧
      (((cs.sum : ℤ) : ℚ) / (cs.length : ℚ)) ≤ 100 := by
  have hlen : 0 < (cs.length : ℚ) := by
    have := List.length_pos.mpr hne
    exact_mod_cast this
  have hs0 : (0 : ℤ) ≤ cs.sum := List.sum_nonneg fun n hn => (hb n hn).1
  have hs1 : cs.sum ≤ (cs.length : ℤ) * 100 := by
    have := List.sum_le_card_nsmul cs 100 fun n hn => (hb n hn).2
    simpa [nsmul_eq_mul, mul_comm] using this
  constructor
  · exact div_nonneg (by exact_mod_cast hs0) (le_of_lt hlen)
  · rw [div_le_iff hlen]
    have : (cs.sum : ℚ) ≤ (cs.length : ℚ) * 100 := by exact_mod_cast hs1
    linarith

/-- Round half to even stays within an enclosing integer interval. -/
theorem roundHalfEven_entre {x : ℚ} {B : ℤ} (h0 : 0 ≤ x) (hB : x ≤ (B : ℚ)) :
    0 ≤ roundHalfEven x ∧ roundHalfEven x ≤ B := by
  have hf0 : (0 : ℤ) ≤ ⌊x⌋ := Int.le_floor.mpr (by exact_mod_cast h0)
  have hfB : ⌊x⌋ ≤ B := by
    calc ⌊x⌋ ≤ ⌊(B : ℚ)⌋ := Int.floor_le_floor hB
    _ = B := Int.floor_intCast B
  have hxf : (⌊x⌋ : ℚ) ≤ x := Int.floor_le x
  unfold roundHalfEven
  split_ifs with h1 h2 h3
  · exact ⟨hf0, hfB⟩
  · have hx : (⌊x⌋ : ℚ) < x := by linarith
    have hlt : ⌊x⌋ < B := by
      rcases lt_or_eq_of_le hfB with h | h
      · exact h
      · exfalso; rw [h] at hx; linarith
    exact ⟨by omega, by omega⟩
  · exact ⟨hf0, hfB⟩
  · push_neg at h1
    have hx : (⌊x⌋ : ℚ) < x := by linarith
    have hlt : ⌊x⌋ < B := by
      rcases lt_or_eq_of_le hfB with h | h
      · exact h
      · exfalso; rw [h] at hx; linarith
    exact ⟨by omega, by omega⟩

/-- Rounding to two decimals stays within [0, 100]. -/
theorem round2_entre {q : ℚ} (h0 : 0 ≤ q) (h100 : q ≤ 100) :
    0 ≤ round2 q ∧ round2 q ≤ 100 := by
  have h := @roundHalfEven_entre (q * 100) 10000
    (by linarith) (by push_cast; linarith)
  unfold round2
  constructor
  · exact div_nonneg (by exact_mod_cast h.1) (by norm_num)
  · rw [div_le_iff (by norm_num : (0 : ℚ) < 100)]
    have : ((roundHalfEven (q * 100) : ℚ)) ≤ 10000 := by exact_mod_cast h.2
    linarith

/-- C1: for every pair of boolean assessment outcomes reached without an
internal error, validar_cpo assigns status and review per the truth
table — both approved gives VERDE (GREEN) with revisao_necessaria=false,
exactly one gives AMARELO (YELLOW) with true, neither gives VERMELHO
(RED) with true — and in every returned verdict revisao_necessaria
equals (status_cpo differs from VERDE). -/
theorem validar_cpo_tabela_verdade (proc : Processador) (caminho : String)
    (t : Option String) (env : CpoEnv) (h : env.inesperado = none) :
    (((validar_dpi env.dpi).aprovado = true ∧
        (validar_confianca_ocr env.ocr).aprovado = true) →
      (validar_cpo proc caminho t env).status_cpo = some "VERDE" ∧
      (validar_cpo proc caminho t env).revisao_necessaria = false) ∧
    (((validar_dpi env.dpi).aprovado = true ∧
        (validar_confianca_ocr env.ocr).aprovado = false) →
      (validar_cpo proc caminho t env).status_cpo = some "AMARELO" ∧
      (validar_cpo proc caminho t env).revisao_necessaria = true) ∧
    (((validar_dpi env.dpi).aprovado = false ∧
        (validar_confianca_ocr env.ocr).aprovado = true) →
      (validar_cpo proc caminho t env).status_cpo = some "AMARELO" ∧
      (validar_cpo proc caminho t env).revisao_necessaria = true) ∧
    (((validar_dpi env.dpi).aprovado = false ∧
        (validar_confianca_ocr env.ocr).aprovado = false) →
      (validar_cpo proc caminho t env).status_cpo = some "VERMELHO" ∧
      (validar_cpo proc caminho t env).revisao_necessaria = true) ∧
    (∀ env' : CpoEnv,
      ((validar_cpo proc caminho t env').revisao_necessaria = true ↔
        (validar_cpo proc caminho t env').status_cpo ≠ some "VERDE")) := by
  refine ⟨?_, ?_, ?_, ?_, ?_⟩
  · rintro ⟨h1, h2⟩
    constructor <;> simp [validar_cpo, h, h1, h2]
  · rintro ⟨h1, h2⟩
    constructor <;> simp [validar_cpo, h, h1, h2]
  · rintro ⟨h1, h2⟩
    constructor <;> simp [validar_cpo, h, h1, h2]
  · rintro ⟨h1, h2⟩
    constructor <;> simp [validar_cpo, h, h1, h2]
  · intro env'
    rcases h5 : env'.inesperado with _ | ⟨st, e⟩
    · cases hd : (validar_dpi env'.dpi).aprovado <;>
        cases ho : (validar_confianca_ocr env'.ocr).aprovado <;>
        simp [validar_cpo, h5, hd, ho]
    · simp [validar_cpo, h5]

/-- C1 witness: a concrete call with both assessments approved and no
internal error is classified VERDE with revisao_necessaria=false. -/
theorem validar_cpo_tabela_verdade_witness :
    (validar_cpo procTeste "doc.pdf" none cpoEnvVerde).status_cpo = some "VERDE" ∧
    (validar_cpo procTeste "doc.pdf" none cpoEnvVerde).revisao_necessaria = false :=
  (validar_cpo_tabela_verdade procTeste "doc.pdf" none cpoEnvVerde rfl).1
    ⟨by decide, by
      show (validar_confianca_ocr ocrEnvBoa).aprovado = true
      have hc : coletar_confiancas [paginaBoa] = [96, 98] := rfl
      simp only [validar_confianca_ocr, ocrEnvBoa, hc]
      norm_num [CONFIANCA_OCR_MINIMA, List.sum_cons]⟩

/-- C2: validar_cpo never raises: an unexpected exception inside its try
block is recorded in erros as the pair of exception type name and
message and forces status VERMELHO with revisao_necessaria=true; the
returned record always carries one of the three statuses; and whenever
erros is non-empty the status is VERMELHO. -/
theorem validar_cpo_nunca_lanca (proc : Processador) (caminho : String)
    (t : Option String) (env : CpoEnv) :
    (∀ stage e, env.inesperado = some (stage, e) →
      (validar_cpo proc caminho t env).erros = [e] ∧
      (validar_cpo proc caminho t env).status_cpo = some "VERMELHO" ∧
      (validar_cpo proc caminho t env).revisao_necessaria = true) ∧
    ((validar_cpo proc caminho t env).erros ≠ [] →
      (validar_cpo proc caminho t env).status_cpo = some "VERMELHO" ∧
      (validar_cpo proc caminho t env).revisao_necessaria = true) ∧
    ((validar_cpo proc caminho t env).status_cpo = some "VERDE" ∨
      (validar_cpo proc caminho t env).status_cpo = some "AMARELO" ∨
      (validar_cpo proc caminho t env).status_cpo = some "VERMELHO") := by
  refine ⟨?_, ?_, ?_⟩
  · intro stage e he
    refine ⟨?_, ?_, ?_⟩ <;> cases stage <;> simp [validar_cpo, he]
  · intro he
    rcases h5 : env.inesperado with _ | ⟨st, e⟩
    · exfalso
      apply he
      cases hd : (validar_dpi env.dpi).aprovado <;>
        cases ho : (validar_confianca_ocr env.ocr).aprovado <;>
        simp [validar_cpo, h5, hd, ho]
    · cases st <;> simp [validar_cpo, h5]
  · rcases h5 : env.inesperado with _ | ⟨st, e⟩
    · cases hd : (validar_dpi env.dpi).aprovado <;>
        cases ho : (validar_confianca_ocr env.ocr).aprovado <;>
        simp [validar_cpo, h5, hd, ho]
    · cases st <;> simp [validar_cpo, h5]

/-- C2 witness: a concrete call in which an unexpected exception fires
returns the record with that exception in erros, status VERMELHO and
revisao_necessaria=true. -/
theorem validar_cpo_nunca_lanca_witness :
    (validar_cpo procTeste "doc.pdf" none cpoEnvFalha).erros = [excInesperada] ∧
    (validar_cpo procTeste "doc.pdf" none cpoEnvFalha).status_cpo = some "VERMELHO" ∧
    (validar_cpo procTeste "doc.pdf" none cpoEnvFalha).revisao_necessaria = true :=
  (validar_cpo_nunca_lanca procTeste "doc.pdf" none cpoEnvFalha).1
    FaultStage.antesOcr excInesperada rfl

/-- C5 counterexample: on a processor constructed with no tenant, two
successive validar_cpo calls that supply no tenant receive the SAME
generated identifier (the uuid drawn once at construction), not distinct
ones as the claim states. -/
theorem tenant_gerado_compartilhado_cex :
    (validar_cpo procGerado "a.pdf" none cpoEnvSimples).tenant_id =
      (validar_cpo procGerado "b.pdf" none cpoEnvSimples).tenant_id ∧
    (validar_cpo procGerado "a.pdf" none cpoEnvSimples).tenant_id = "uuid-0" ∧
    procGerado.tenant_id = "uuid-0" :=
  ⟨rfl, rfl, rfl⟩

/-- C5 amended: the default tenant identifier is generated once, at
processor construction (fresh per instance, advancing the generator),
and every validar_cpo call that supplies no tenant reuses that
per-instance identifier; so successive no-tenant calls on one instance
share it, while distinct instances built from successive generator
states receive distinct identifiers. -/
theorem tenant_id_por_instancia (proc : Processador) (caminho : String)
    (env : CpoEnv) (g : UuidGen) :
    (validar_cpo proc caminho none env).tenant_id = proc.tenant_id ∧
    (mkProcessador none g).1.tenant_id = (uuid4 g).1 ∧
    (mkProcessador none g).2.counter = g.counter + 1 ∧
    (mkProcessador none ⟨0⟩).1.tenant_id ≠
      (mkProcessador none (mkProcessador none ⟨0⟩).2).1.tenant_id := by
  refine ⟨?_, rfl, rfl, by decide⟩
  rcases h5 : env.inesperado with _ | ⟨st, e⟩
  · cases hd : (validar_dpi env.dpi).aprovado <;>
      cases ho : (validar_confianca_ocr env.ocr).aprovado <;>
      simp [validar_cpo, h5, hd, ho, pyOr]
  · cases st <;> simp [validar_cpo, h5, pyOr]

/-- C6: the resolution estimator buckets the rendered pixel dimensions of
the first page (width at least 2000 and height at least 2500 gives class
300, else width at least 1000 and height at least 1400 gives 150, else
72), any rendering failure or empty rendering yields class None, and an
undetected class makes the assessment unapproved with no detected value;
the component is a total function, so no exception escapes it. -/
theorem detectar_dpi_classes (env : DpiEnv) :
    (∀ w h rest, env.convertFirst = .ok ((w, h) :: rest) →
      detectar_dpi_por_tamanho env =
        some (if 2000 ≤ w ∧ 2500 ≤ h then 300
          else if 1000 ≤ w ∧ 1400 ≤ h then 150 else 72)) ∧
    (∀ e, env.convertFirst = .error e → detectar_dpi_por_tamanho env = none) ∧
    (env.convertFirst = .ok [] → detectar_dpi_por_tamanho env = none) ∧
    (extrair_dpi_pdf env = none →
      (validar_dpi env).aprovado = false ∧
      (validar_dpi env).dpi_detectado = none) := by
  refine ⟨?_, ?_, ?_, ?_⟩
  · intro w h rest hc
    simp [detectar_dpi_por_tamanho, classe_dpi, hc]
  · intro e hc
    simp [detectar_dpi_por_tamanho, hc]
  · intro hc
    simp [detectar_dpi_por_tamanho, hc]
  · intro hn
    constructor <;> simp [validar_dpi, hn]

/-- C6 witness: a concrete rendering failure yields detected class None
and an unapproved assessment. -/
theorem detectar_dpi_classes_witness :
    detectar_dpi_por_tamanho dpiEnvFalha = none ∧
    (validar_dpi dpiEnvFalha).aprovado = false ∧
    (validar_dpi dpiEnvFalha).dpi_detectado = none :=
  ⟨(detectar_dpi_classes dpiEnvFalha).2.1 ⟨"PDFPageCountError", "arquivo corrompido"⟩ rfl,
    (detectar_dpi_classes dpiEnvFalha).2.2.2 rfl⟩

/-- C9: the classification of rendered pixel dimensions into a detected
class is monotone (under 72 < 150 < 300, which is the numeric order):
increasing width or height never decreases the class; and the estimator
applies exactly this classification to the first rendered page. -/
theorem classe_dpi_monotona (w₁ w₂ h₁ h₂ : Nat) (hw : w₁ ≤ w₂) (hh : h₁ ≤ h₂) :
    classe_dpi w₁ h₁ ≤ classe_dpi w₂ h₂ ∧
    (∀ env : DpiEnv, ∀ w h rest, env.convertFirst = .ok ((w, h) :: rest) →
      detectar_dpi_por_tamanho env = some (classe_dpi w h)) := by
  constructor
  · unfold classe_dpi
    split_ifs <;> omega
  · intro env w h rest hc
    simp [detectar_dpi_por_tamanho, hc]

/-- C9 witness: a concrete pair of dimension-wise comparable inputs whose
classes are ordered accordingly. -/
theorem classe_dpi_monotona_witness :
    classe_dpi 1200 1600 ≤ classe_dpi 2500 3600 ∧ classe_dpi 1200 1600 = 150 ∧
    classe_dpi 2500 3600 = 300 :=
  ⟨(classe_dpi_monotona 1200 2500 1600 3600 (by decide) (by decide)).1,
    by decide, by decide⟩

/-- C10: the errored branch of processar_documento is unreachable:
because validar_cpo absorbs every exception, the returned record always
has processamento status "concluido", an empty top-level erros list, and
carries the verdict of the inner validar_cpo call. -/
theorem processar_documento_sempre_concluido (proc : Processador)
    (caminho : String) (t : Option String) (env : CpoEnv) :
    (processar_documento proc caminho t env).status = "concluido" ∧
    (processar_documento proc caminho t env).erros = [] ∧
    (processar_documento proc caminho t env).validacao_cpo =
      some (validar_cpo proc caminho (some (pyOr t proc.tenant_id)) env) :=
  ⟨rfl, rfl, rfl⟩

/-- When the pool is non-empty, media_confiancas is the pooled sum over
the pooled count. -/
theorem media_confiancas_eq_of_ne {pages : List PageOcr}
    (h : coletar_confiancas pages ≠ []) :
    media_confiancas pages =
      some (((List.sum (coletar_confiancas pages) : ℤ) : ℚ) /
        ((coletar_confiancas pages).length : ℚ)) := by
  rcases hc : coletar_confiancas pages with _ | ⟨c, cs⟩
  · exact absurd hc h
  · simp [media_confiancas, hc]

/-- When the pool is non-empty, approval is exactly the inclusive
threshold test on the pooled mean. -/
theorem validar_confianca_ocr_aprovado_eq {page : PageOcr}
    {pages : List PageOcr} (h : coletar_confiancas (page :: pages) ≠ []) :
    ((validar_confianca_ocr ⟨.ok (page :: pages)⟩).aprovado = true ↔
      CONFIANCA_OCR_MINIMA ≤
        ((List.sum (coletar_confiancas (page :: pages)) : ℤ) : ℚ) /
          ((coletar_confiancas (page :: pages)).length : ℚ)) := by
  rcases hc : coletar_confiancas (page :: pages) with _ | ⟨c, cs⟩
  · exact absurd hc h
  · simp only [validar_confianca_ocr, hc]
    split_ifs with hle
    · exact iff_of_true rfl hle
    · exact iff_of_false (by simp) hle

/-- When the pool is non-empty, the stored mean is the two-decimal
rounding of the pooled mean. -/
theorem validar_confianca_ocr_media_eq {page : PageOcr}
    {pages : List PageOcr} (h : coletar_confiancas (page :: pages) ≠ []) :
    (validar_confianca_ocr ⟨.ok (page :: pages)⟩).confianca_media =
      some (round2
        (((List.sum (coletar_confiancas (page :: pages)) : ℤ) : ℚ) /
          ((coletar_confiancas (page :: pages)).length : ℚ))) := by
  rcases hc : coletar_confiancas (page :: pages) with _ | ⟨c, cs⟩
  · exact absurd hc h
  · simp only [validar_confianca_ocr, hc]
    split_ifs with hle <;> rfl

/-- C3: the sentinel is excluded from pooling — inserting a sentinel
token anywhere in the OCR data of a page leaves the pooled confidences
unchanged — and consequently, when every non-sentinel token score lies
in [0, 100], any known mean_confidence of the assessment lies in
[0, 100]. -/
theorem sentinela_excluida_limites (dados₁ dados₂ : List ConfToken)
    (pages : List PageOcr)
    (hb : ∀ dados, Except.ok dados ∈ pages →
      ∀ n : Int, ConfToken.score n ∈ dados → 0 ≤ n ∧ n ≤ 100) :
    confiancas_pagina (dados₁ ++ ConfToken.sentinel :: dados₂) =
      confiancas_pagina (dados₁ ++ dados₂) ∧
    (∀ m : ℚ, (validar_confianca_ocr ⟨.ok pages⟩).confianca_media = some m →
      0 ≤ m ∧ m ≤ 100) := by
  constructor
  · simp [confiancas_pagina, List.filterMap_append, List.filterMap_cons]
  · intro m hm
    rcases pages with _ | ⟨page, rest⟩
    · simp [validar_confianca_ocr, ocrResultadoInicial] at hm
    · have hbounds : ∀ n ∈ coletar_confiancas (page :: rest), 0 ≤ n ∧ n ≤ 100 := by
        intro n hn
        rcases mem_coletar_confiancas hn with ⟨dados, hd, hs⟩
        exact hb dados hd n hs
      rcases hcol : coletar_confiancas (page :: rest) with _ | ⟨c, cs⟩
      · simp [validar_confianca_ocr, hcol, ocrResultadoInicial] at hm
      · have hne : coletar_confiancas (page :: rest) ≠ [] := by rw [hcol]; simp
        rw [validar_confianca_ocr_media_eq hne] at hm
        have hmb := media_entre (coletar_confiancas (page :: rest)) hne hbounds
        have hr := round2_entre hmb.1 hmb.2
        cases Option.some.inj hm
        exact hr

/-- C3 witness: on a concrete page with tokens scored 96 and 98 plus a
sentinel, the sentinel is dropped from pooling and the known mean (97)
lies in [0, 100]. -/
theorem sentinela_excluida_limites_witness :
    confiancas_pagina ([ConfToken.score 96] ++
        ConfToken.sentinel :: [ConfToken.score 98]) =
      confiancas_pagina ([ConfToken.score 96] ++ [ConfToken.score 98]) ∧
    (0 ≤ (97 : ℚ) ∧ (97 : ℚ) ≤ 100) := by
  have h := sentinela_excluida_limites [ConfToken.score 96] [ConfToken.score 98]
    [paginaBoa] (by
      intro dados hd n hn
      simp [paginaBoa] at hd
      subst hd
      simp at hn
      rcases hn with rfl | rfl <;> omega)
  refine ⟨h.1, h.2 97 ?_⟩
  have hc : coletar_confiancas [paginaBoa] = [96, 98] := rfl
  have hne : coletar_confiancas [paginaBoa] ≠ [] := by rw [hc]; simp
  rw [validar_confianca_ocr_media_eq hne, hc]
  norm_num [round2, roundHalfEven, List.sum_cons]

/-- C8: whenever the pooled collection is empty — the document rendered
no page, or the rendered pages yielded zero scoreable tokens — the
confidence assessment is unapproved with mean_confidence None and a
dedicated no-data message (semDados after processing pages, semImagens
for an empty rendering), each distinct from the below-threshold
insuficiente message. -/
theorem sem_dados_confianca (env : OcrEnv) :
    (∀ page rest, env.convert = .ok (page :: rest) →
      coletar_confiancas (page :: rest) = [] →
      (validar_confianca_ocr env).aprovado = false ∧
      (validar_confianca_ocr env).confianca_media = none ∧
      (validar_confianca_ocr env).mensagem = some .semDados) ∧
    (env.convert = .ok [] →
      (validar_confianca_ocr env).aprovado = false ∧
      (validar_confianca_ocr env).confianca_media = none ∧
      (validar_confianca_ocr env).mensagem = some .semImagens) ∧
    (∀ m : ℚ, OcrMensagem.semDados ≠ OcrMensagem.insuficiente m ∧
      OcrMensagem.semImagens ≠ OcrMensagem.insuficiente m ∧
      OcrMensagem.semDados ≠ OcrMensagem.semImagens) := by
  refine ⟨?_, ?_, ?_⟩
  · intro page rest hconv hcol
    refine ⟨?_, ?_, ?_⟩ <;>
      simp [validar_confianca_ocr, hconv, hcol, ocrResultadoInicial]
  · intro hconv
    refine ⟨?_, ?_, ?_⟩ <;>
      simp [validar_confianca_ocr, hconv, ocrResultadoInicial]
  · intro m
    refine ⟨by simp, by simp, by simp⟩

/-- C8 witness: a concrete document whose pages render but produce zero
scoreable tokens gets the semDados no-data outcome. -/
theorem sem_dados_confianca_witness :
    (validar_confianca_ocr ocrEnvSemDados).aprovado = false ∧
    (validar_confianca_ocr ocrEnvSemDados).confianca_media = none ∧
    (validar_confianca_ocr ocrEnvSemDados).mensagem = some .semDados :=
  (sem_dados_confianca ocrEnvSemDados).1
    paginaSemDados [paginaFalha] rfl rfl

/-- C4: the aggregation is one single pooled arithmetic mean — the stored
mean is the rounding of the sum of all non-sentinel token scores of all
pages combined over their count; permuting the page processing order
leaves the whole assessment unchanged; and the pooled mean differs from
the average of per-page averages on pages of unequal token counts. -/
theorem media_agrupada_ordem (page : PageOcr) (pages : List PageOcr)
    (pages₁ pages₂ : List PageOcr) (hperm : pages₁.Perm pages₂) :
    (coletar_confiancas (page :: pages) ≠ [] →
      (validar_confianca_ocr ⟨.ok (page :: pages)⟩).confianca_media =
        some (round2
          (((List.sum (((page :: pages).map paginaScores).flatten) : ℤ) : ℚ) /
            ((((page :: pages).map paginaScores).flatten).length : ℚ)))) ∧
    validar_confianca_ocr ⟨.ok pages₁⟩ = validar_confianca_ocr ⟨.ok pages₂⟩ ∧
    media_confiancas paginasDesiguais = some (200 / 3) ∧
    media_das_medias paginasDesiguais = some 75 ∧
    media_confiancas paginasDesiguais ≠ media_das_medias paginasDesiguais := by
  have hm3 : media_confiancas paginasDesiguais = some (200 / 3) := by
    have hne : coletar_confiancas paginasDesiguais ≠ [] := by decide
    rw [media_confiancas_eq_of_ne hne]
    have hc : coletar_confiancas paginasDesiguais = [100, 0, 100] := rfl
    rw [hc]
    norm_num [List.sum_cons]
  have hm4 : media_das_medias paginasDesiguais = some 75 := by
    simp only [media_das_medias, paginasDesiguais, confiancas_pagina,
      List.filterMap_cons, List.filterMap_nil]
    norm_num [List.sum_cons]
  refine ⟨?_, ?_, hm3, hm4, ?_⟩
  · intro hne
    rw [validar_confianca_ocr_media_eq hne, ← coletar_eq_flatten]
  · have hj : (coletar_confiancas pages₁).Perm (coletar_confiancas pages₂) := by
      rw [coletar_eq_flatten, coletar_eq_flatten]
      exact (hperm.map paginaScores).flatten
    have hsum : (coletar_confiancas pages₁).sum = (coletar_confiancas pages₂).sum :=
      hj.sum_eq
    have hlen : (coletar_confiancas pages₁).length =
        (coletar_confiancas pages₂).length := hj.length_eq
    rcases pages₁ with _ | ⟨a, l₁⟩
    · have h2 : pages₂ = [] := hperm.nil_eq.symm
      subst h2; rfl
    · rcases pages₂ with _ | ⟨b, l₂⟩
      · exact absurd hperm (by simp)
      · rcases hc1 : coletar_confiancas (a :: l₁) with _ | ⟨c, cs⟩
        · have hc2 : coletar_confiancas (b :: l₂) = [] := by
            rw [hc1] at hj
            exact (List.Perm.nil_eq hj).symm
          simp [validar_confianca_ocr, hc1, hc2]
        · rcases hc2 : coletar_confiancas (b :: l₂) with _ | ⟨d, ds⟩
          · rw [hc1, hc2] at hj
            exact absurd hj (by simp)
          · rw [hc1, hc2] at hsum hlen
            have hM : ((List.sum (c :: cs) : ℤ) : ℚ) / (((c :: cs).length : ℕ) : ℚ) =
                ((List.sum (d :: ds) : ℤ) : ℚ) / (((d :: ds).length : ℕ) : ℚ) := by
              rw [hsum, hlen]
            simp only [validar_confianca_ocr, hc1, hc2, hM]
  · rw [hm3, hm4]
    intro hcontra
    have := Option.some.inj hcontra
    norm_num at this

/-- C4 witness: swapping two concrete pages leaves the assessment
unchanged, and the stored mean of a concrete document equals the rounded
flat pooled mean. -/
theorem media_agrupada_ordem_witness :
    validar_confianca_ocr ⟨.ok [paginaBoa, paginaSemDados]⟩ =
      validar_confianca_ocr ⟨.ok [paginaSemDados, paginaBoa]⟩ ∧
    (validar_confianca_ocr ⟨.ok [paginaBoa]⟩).confianca_media =
      some (round2
        (((List.sum (([paginaBoa].map paginaScores).flatten) : ℤ) : ℚ) /
          ((([paginaBoa].map paginaScores).flatten).length : ℚ))) :=
  ⟨(media_agrupada_ordem paginaBoa [] [paginaBoa, paginaSemDados]
      [paginaSemDados, paginaBoa]
      (List.Perm.swap paginaSemDados paginaBoa [])).2.1,
    (media_agrupada_ordem paginaBoa [] [] [] (List.Perm.refl [])).1 (by decide)⟩

/-- The pooled collection of the 94.999 document: 999 scores of 95 and
one of 94. -/
theorem coletar_pagina94999 :
    coletar_confiancas [pagina94999] =
      List.replicate 999 (95 : ℤ) ++ [94] := by
  rw [coletar_eq_flatten]
  simp only [pagina94999, List.map_cons, List.map_nil, List.flatten_cons,
    List.flatten_nil, List.append_nil, paginaScores, confiancas_pagina,
    List.filterMap_append, List.filterMap_replicate, List.filterMap_cons,
    List.filterMap_nil]

/-- C7: both approval thresholds are inclusive: the resolution assessment
approves exactly when a detected class exists and is at least 300, the
confidence assessment approves exactly when the pooled mean exists and is
at least 95; in particular detected class exactly 300 approves while 150
does not, and pooled mean exactly 95 approves while 94.999 does not. -/
theorem limiares_inclusivos (denv : DpiEnv) (pages : List PageOcr) :
    ((validar_dpi denv).aprovado = true ↔
      (∃ d, (validar_dpi denv).dpi_detectado = some d ∧
        DPI_MINIMO_REQUERIDO ≤ d)) ∧
    ((validar_confianca_ocr ⟨.ok pages⟩).aprovado = true ↔
      (∃ m : ℚ, media_confiancas pages = some m ∧ CONFIANCA_OCR_MINIMA ≤ m)) ∧
    (validar_dpi dpiEnvLimite300).aprovado = true ∧
    (validar_dpi dpiEnvLimite300).dpi_detectado = some 300 ∧
    (validar_dpi dpiEnvMedia).aprovado = false ∧
    (validar_dpi dpiEnvMedia).dpi_detectado = some 150 ∧
    (validar_confianca_ocr ocrEnvLimite).aprovado = true ∧
    media_confiancas [paginaLimite95] = some 95 ∧
    (validar_confianca_ocr ocrEnv94999).aprovado = false ∧
    media_confiancas [pagina94999] = some (94999 / 1000) := by
  have hc95 : coletar_confiancas [paginaLimite95] = [95] := rfl
  have hne95 : coletar_confiancas [paginaLimite95] ≠ [] := by rw [hc95]; simp
  have hne999 : coletar_confiancas [pagina94999] ≠ [] := by
    rw [coletar_pagina94999]
    apply List.length_pos.mp
    rw [List.length_append, List.length_replicate]
    simp
  have hsum999 : (List.replicate 999 (95 : ℤ) ++ [94]).sum = 94999 := by
    rw [List.sum_append, List.sum_replicate]
    norm_num
  have hlen999 : (List.replicate 999 (95 : ℤ) ++ [94]).length = 1000 := by
    rw [List.length_append, List.length_replicate]
    simp
  refine ⟨?_, ?_, by decide, by decide, by decide, by decide, ?_, ?_, ?_, ?_⟩
  · rcases hx : extrair_dpi_pdf denv with _ | d
    · simp [validar_dpi, hx]
    · by_cases hlt : d < DPI_MINIMO_REQUERIDO
      · have ha : (validar_dpi denv).aprovado = false := by
          simp [validar_dpi, hx, hlt]
        have hd : (validar_dpi denv).dpi_detectado = some d := by
          simp [validar_dpi, hx, hlt]
        rw [ha, hd]
        constructor
        · intro h; simp at h
        · rintro ⟨d', hd', hge⟩
          cases Option.some.inj hd'
          omega
      · have ha : (validar_dpi denv).aprovado = true := by
          simp [validar_dpi, hx, hlt]
        have hd : (validar_dpi denv).dpi_detectado = some d := by
          simp [validar_dpi, hx, hlt]
        rw [ha, hd]
        constructor
        · intro _
          exact ⟨d, rfl, by omega⟩
        · intro _; rfl
  · rcases pages with _ | ⟨p, ps⟩
    · simp [validar_confianca_ocr, media_confiancas, coletar_confiancas,
        ocrResultadoInicial]
    · rcases hcol : coletar_confiancas (p :: ps) with _ | ⟨c, cs⟩
      · simp [validar_confianca_ocr, media_confiancas, hcol, ocrResultadoInicial]
      · have hne : coletar_confiancas (p :: ps) ≠ [] := by rw [hcol]; simp
        rw [validar_confianca_ocr_aprovado_eq hne, media_confiancas_eq_of_ne hne]
        constructor
        · intro hle
          exact ⟨_, rfl, hle⟩
        · rintro ⟨m, hm, hle⟩
          cases Option.some.inj hm
          exact hle
  · show (validar_confianca_ocr ⟨Except.ok [paginaLimite95]⟩).aprovado = true
    rw [validar_confianca_ocr_aprovado_eq hne95]
    rw [hc95]
    norm_num [CONFIANCA_OCR_MINIMA]
  · rw [media_confiancas_eq_of_ne hne95, hc95]
    norm_num
  · show (validar_confianca_ocr ⟨Except.ok [pagina94999]⟩).aprovado = false
    have hiff := @validar_confianca_ocr_aprovado_eq pagina94999 [] hne999
    have hcond : ¬(CONFIANCA_OCR_MINIMA ≤
        ((List.sum (coletar_confiancas [pagina94999]) : ℤ) : ℚ) /
          ((coletar_confiancas [pagina94999]).length : ℚ)) := by
      rw [coletar_pagina94999, hsum999, hlen999]
      norm_num [CONFIANCA_OCR_MINIMA]
    cases hb : (validar_confianca_ocr ⟨Except.ok [pagina94999]⟩).aprovado with
    | false => rfl
    | true => exact absurd (hiff.mp hb) hcond
  · rw [media_confiancas_eq_of_ne hne999, coletar_pagina94999, hsum999, hlen999]
    norm_num

/-- C7 witness: the boundary instances — detected class exactly 300
approved, pooled mean exactly 95 approved — via the inclusive threshold
characterizations. -/
theorem limiares_inclusivos_witness :
    (validar_dpi dpiEnvLimite300).aprovado = true ∧
    (validar_confianca_ocr ocrEnvLimite).aprovado = true :=
  ⟨(limiares_inclusivos dpiEnvLimite300 []).1.mpr ⟨300, by decide, by decide⟩,
    (limiares_inclusivos dpiEnvLimite300 []).2.2.2.2.2.2.1⟩
